import Mathlib

/-!
Verification of the launch coordination and genesis bootstrapping core of
the `starport` repository (package `network`, file
`ignite/services/network/launch.go`, and the `networkchain` chain
initialization code in the same source file).

Times are modelled as integers (nanoseconds, the unit of Go's
`time.Duration`); `time.Time.IsZero` becomes equality with `0`,
`time.Time.Before`/`After` become `<`/`>` on `Int`. Errors carried by Go
`error` values built with `fmt.Errorf`/`errors.New` are modelled as an
inductive type whose constructors carry exactly the format arguments of the
corresponding call site; errors coming back from external collaborators
(query service, account store, broadcaster, filesystem, chain commands) are
opaque and wrapped in a dedicated constructor. External collaborators are
modelled as oracle fields of an environment record: each field holds the
result the collaborator would return when invoked. Every function returns,
besides its Go return value, the trace of externally observable effects it
performed (events sent, messages broadcast, decode calls, file removals and
writes, fetches, local init-command invocations), so that claims about
"X is never invoked" are statable.
-/

deriving instance DecidableEq for Except

/-- One nanosecond-count per second, the base unit of Go durations. -/
def second : Int := 1000000000

/-- Go: `const MinLaunchTimeOffset = time.Second * 30`. -/
def MinLaunchTimeOffset : Int := second * 30

/-- Go: `launchtypes.LaunchTimeRange` with the two duration params used by
`TriggerLaunch` (`MinLaunchTime`, `MaxLaunchTime`). -/
structure LaunchTimeRange where
  minLaunchTime : Int
  maxLaunchTime : Int
deriving DecidableEq, Repr

/-- Go: `launchtypes.Params` as consumed by `TriggerLaunch`. -/
structure Params where
  launchTimeRange : LaunchTimeRange
deriving DecidableEq, Repr

/-- Errors produced by the core itself (constructor arguments are the
format arguments of the corresponding `fmt.Errorf` call) or propagated
opaquely from an external collaborator (`wrapped`). -/
inductive Err where
  /-- an opaque error value returned by an external collaborator -/
  | wrapped (tag : String)
  /-- `fmt.Errorf("launch time %s lower than minimum %s", launchTime, minLaunchTime)` -/
  | lowerBound (requested bound : Int)
  /-- `fmt.Errorf("launch time %s bigger than maximum %s", launchTime, maxLaunchTime)` -/
  | upperBound (requested bound : Int)
  /-- `fmt.Errorf("genesis from URL %s is invalid. expected hash %s, actual hash %s", url, expected, actual)` -/
  | hashMismatch (url expected actual : String)
  /-- `errors.New("the initial genesis for the chain should not contain gentx")` -/
  | gentxPresent
deriving DecidableEq, Repr

/-- The message string of each error value, mirroring the format string of
the Go call site that builds it (`%s` on times rendered via `toString`). -/
def Err.message : Err → String
  | .wrapped tag => tag
  | .lowerBound requested bound =>
      "launch time " ++ toString requested ++ " lower than minimum " ++ toString bound
  | .upperBound requested bound =>
      "launch time " ++ toString requested ++ " bigger than maximum " ++ toString bound
  | .hashMismatch url expected actual =>
      "genesis from URL " ++ url ++ " is invalid. expected hash " ++ expected
        ++ ", actual hash " ++ actual
  | .gentxPresent => "the initial genesis for the chain should not contain gentx"

/-- Go: `events.New(status, text)` where status is `StatusOngoing` or
`StatusDone`. -/
inductive Event where
  | ongoing (text : String)
  | done (text : String)
deriving DecidableEq, Repr

/-- Go: `launchtypes.NewMsgTriggerLaunch(address, launchID, launchTime)`. -/
structure MsgTriggerLaunch where
  coordinator : String
  launchID : Nat
  launchTime : Int
deriving DecidableEq, Repr

/-- Go: `launchtypes.NewMsgRevertLaunch(address, launchID)`. -/
structure MsgRevertLaunch where
  coordinator : String
  launchID : Nat
deriving DecidableEq, Repr

/-- Oracle for the external collaborators consumed by `Network.TriggerLaunch`:
the clock reading, and the result each external call would return
(`launchQuery.Params`, `account.Address`, `cosmos.BroadcastTx`, and
`res.Decode` on the broadcast response). -/
structure Network where
  now : Int
  paramsRes : Except String Params
  addressRes : Except String String
  broadcastRes : Except String Unit
  decodeRes : Except String Unit
deriving DecidableEq, Repr

/-- Observable outcome of one `TriggerLaunch` call: events sent to the
event bus, trigger messages handed to `BroadcastTx`, number of `Decode`
calls on the broadcast response, and the Go return value. -/
structure TriggerOutcome where
  events : List Event
  broadcasts : List MsgTriggerLaunch
  decodes : Nat
  result : Except Err Unit
deriving DecidableEq, Repr

/-- Tail of `TriggerLaunch` from the point where the launch time has been
resolved: build the message, send the "Setting launch time" event,
broadcast, decode the response, send the final done event. -/
def triggerBroadcast (n : Network) (ev0 : List Event) (address : String)
    (launchID : Nat) (launchTime : Int) : TriggerOutcome :=
  let msg : MsgTriggerLaunch := ⟨address, launchID, launchTime⟩
  let ev1 := ev0 ++ [Event.ongoing "Setting launch time"]
  match n.broadcastRes with
  | .error e => ⟨ev1, [msg], 0, .error (.wrapped e)⟩
  | .ok _ =>
    match n.decodeRes with
    | .error e => ⟨ev1, [msg], 1, .error (.wrapped e)⟩
    | .ok _ =>
      ⟨ev1 ++ [Event.done ("Chain " ++ toString launchID ++ " will be launched on "
          ++ toString launchTime)],
        [msg], 1, .ok ()⟩

/-- Go: `func (n Network) TriggerLaunch(ctx, launchID, launchTime) error`.
Mirrors the source line by line: send the ongoing event, fetch params,
compute `minLaunchTime = clock.Now() + params.MinLaunchTime +
MinLaunchTimeOffset` and `maxLaunchTime = clock.Now() + params.MaxLaunchTime`,
resolve the coordinator address, default a zero launch time to
`minLaunchTime` or range-check a nonzero one, then broadcast and decode. -/
def TriggerLaunch (n : Network) (launchID : Nat) (launchTime : Int) : TriggerOutcome :=
  let ev0 := [Event.ongoing ("Launching chain " ++ toString launchID)]
  match n.paramsRes with
  | .error e => ⟨ev0, [], 0, .error (.wrapped e)⟩
  | .ok params =>
    let minLaunchTime := n.now + params.launchTimeRange.minLaunchTime + MinLaunchTimeOffset
    let maxLaunchTime := n.now + params.launchTimeRange.maxLaunchTime
    match n.addressRes with
    | .error e => ⟨ev0, [], 0, .error (.wrapped e)⟩
    | .ok address =>
      if launchTime = 0 then
        triggerBroadcast n ev0 address launchID minLaunchTime
      else if launchTime < minLaunchTime then
        ⟨ev0, [], 0, .error (.lowerBound launchTime minLaunchTime)⟩
      else if maxLaunchTime < launchTime then
        ⟨ev0, [], 0, .error (.upperBound launchTime maxLaunchTime)⟩
      else
        triggerBroadcast n ev0 address launchID launchTime

/-- Oracle for the external collaborators consumed by `Network.RevertLaunch`:
`account.Address`, `cosmos.BroadcastTx`, and `chain.ResetGenesisTime`. -/
structure RevertEnv where
  addressRes : Except String String
  broadcastRes : Except String Unit
  resetRes : Except String Unit
deriving DecidableEq, Repr

/-- Observable outcome of one `RevertLaunch` call. -/
structure RevertOutcome where
  events : List Event
  broadcasts : List MsgRevertLaunch
  decodes : Nat
  result : Except Err Unit
deriving DecidableEq, Repr

/-- Go: `func (n Network) RevertLaunch(ctx, launchID, chain) error`.
The broadcast response is discarded (`_, err = n.cosmos.BroadcastTx(...)`)
and never decoded; on broadcast success the done event is sent, then the
chain's genesis time is reset. -/
def RevertLaunch (env : RevertEnv) (launchID : Nat) : RevertOutcome :=
  let ev0 := [Event.ongoing ("Reverting launched chain " ++ toString launchID)]
  match env.addressRes with
  | .error e => ⟨ev0, [], 0, .error (.wrapped e)⟩
  | .ok address =>
    let msg : MsgRevertLaunch := ⟨address, launchID⟩
    match env.broadcastRes with
    | .error e => ⟨ev0, [msg], 0, .error (.wrapped e)⟩
    | .ok _ =>
      let ev1 := ev0 ++ [Event.done ("Chain " ++ toString launchID ++ " launch was reverted"),
        Event.ongoing "Resetting the genesis time"]
      match env.resetRes with
      | .error e => ⟨ev1, [msg], 0, .error (.wrapped e)⟩
      | .ok _ => ⟨ev1 ++ [Event.done "Genesis time was reset"], [msg], 0, .ok ()⟩

/-- Go: the mutable fields of `networkchain.Chain` touched by `Init`,
`initGenesis` and `checkInitialGenesis`: the genesis URL and hash of the
chain record, and the initialization flag. -/
structure Chain where
  genesisURL : String
  genesisHash : String
  isInitialized : Bool
deriving DecidableEq, Repr

/-- Go: `cosmosutil.ChainGenesis` as consumed by `checkInitialGenesis`:
only its `GenTxCount()` is inspected. -/
structure ChainGenesis where
  genTxCount : Nat
deriving DecidableEq, Repr

/-- Oracle for the external calls made by `checkInitialGenesis`:
`chain.Commands`, `chain.GenesisPath`, `os.ReadFile`,
`cosmosutil.ParseChainGenesis`, and `chainCmd.ValidateGenesis`. -/
structure CheckEnv where
  commandsRes : Except String Unit
  genesisPathRes : Except String String
  readRes : Except String String
  parseRes : Except String ChainGenesis
  validateRes : Except String Unit
deriving DecidableEq, Repr

/-- Outcome of `checkInitialGenesis`: the Go return value and the number of
`ValidateGenesis` invocations performed. -/
structure CheckOutcome where
  validates : Nat
  result : Except Err Unit
deriving DecidableEq, Repr

/-- Go: `func (c *Chain) checkInitialGenesis(ctx) error`. Resolves the
chain commands and genesis path, reads and parses the genesis file, rejects
with a fixed semantic error when the parsed genesis contains any gentx, and
otherwise delegates to the chain binary's validate-genesis command. -/
def checkInitialGenesis (env : CheckEnv) : CheckOutcome :=
  match env.commandsRes with
  | .error e => ⟨0, .error (.wrapped e)⟩
  | .ok _ =>
    match env.genesisPathRes with
    | .error e => ⟨0, .error (.wrapped e)⟩
    | .ok _ =>
      match env.readRes with
      | .error e => ⟨0, .error (.wrapped e)⟩
      | .ok _ =>
        match env.parseRes with
        | .error e => ⟨0, .error (.wrapped e)⟩
        | .ok chainGenesis =>
          if chainGenesis.genTxCount > 0 then
            ⟨0, .error .gentxPresent⟩
          else
            match env.validateRes with
            | .error e => ⟨1, .error (.wrapped e)⟩
            | .ok _ => ⟨1, .ok ()⟩

/-- Oracle for the external calls made by `initGenesis`:
`chain.GenesisPath`, `os.RemoveAll` on the genesis path,
`cosmosutil.GenesisAndHashFromURL` (returning content and hash),
`os.WriteFile`, `chain.Commands`, `cmd.Init`, and the oracle of the nested
`checkInitialGenesis` call. -/
structure GenesisEnv where
  genesisPathRes : Except String String
  removeGenesisRes : Except String Unit
  fetchRes : Except String (String × String)
  writeRes : Except String Unit
  commandsRes : Except String Unit
  cmdInitRes : Except String Unit
  checkEnv : CheckEnv
deriving DecidableEq, Repr

/-- Observable outcome of `initGenesis`: the (possibly updated) genesis
hash of the chain record, the filesystem removals and writes performed, the
number of remote fetches and local init-command invocations, the number of
`ValidateGenesis` invocations, the events sent, and the Go return value. -/
structure GenesisOutcome where
  genesisHash : String
  removals : List String
  writes : List (String × String)
  fetches : Nat
  cmdInits : Nat
  validates : Nat
  events : List Event
  result : Except Err Unit
deriving DecidableEq, Repr

/-- Tail of `initGenesis` after the genesis source has been materialized:
run `checkInitialGenesis` and send the final done event on success. -/
def initGenesisCheck (env : GenesisEnv) (hash : String)
    (removals : List String) (writes : List (String × String))
    (fetches cmdInits : Nat) (ev : List Event) : GenesisOutcome :=
  let chk := checkInitialGenesis env.checkEnv
  match chk.result with
  | .error e => ⟨hash, removals, writes, fetches, cmdInits, chk.validates, ev, .error e⟩
  | .ok _ =>
    ⟨hash, removals, writes, fetches, cmdInits, chk.validates,
      ev ++ [Event.done "Genesis initialized"], .ok ()⟩

/-- Go: `func (c *Chain) initGenesis(ctx) error`. Sends the ongoing event,
resolves the genesis path, removes any existing genesis file, then either
fetches the genesis from `c.genesisURL` (adopting the fetched hash when the
record has none, failing on a hash mismatch, and writing the fetched
content) or re-runs the local init command to regenerate the default
genesis, and finally validates the initial genesis. -/
def initGenesis (c : Chain) (env : GenesisEnv) : GenesisOutcome :=
  let ev0 := [Event.ongoing "Computing the Genesis"]
  match env.genesisPathRes with
  | .error e => ⟨c.genesisHash, [], [], 0, 0, 0, ev0, .error (.wrapped e)⟩
  | .ok genesisPath =>
    match env.removeGenesisRes with
    | .error e => ⟨c.genesisHash, [genesisPath], [], 0, 0, 0, ev0, .error (.wrapped e)⟩
    | .ok _ =>
      if c.genesisURL ≠ "" then
        match env.fetchRes with
        | .error e => ⟨c.genesisHash, [genesisPath], [], 1, 0, 0, ev0, .error (.wrapped e)⟩
        | .ok (genesis, hash) =>
          if c.genesisHash = "" then
            match env.writeRes with
            | .error e =>
              ⟨hash, [genesisPath], [(genesisPath, genesis)], 1, 0, 0, ev0, .error (.wrapped e)⟩
            | .ok _ =>
              initGenesisCheck env hash [genesisPath] [(genesisPath, genesis)] 1 0 ev0
          else if hash ≠ c.genesisHash then
            ⟨c.genesisHash, [genesisPath], [], 1, 0, 0, ev0,
              .error (.hashMismatch c.genesisURL c.genesisHash hash)⟩
          else
            match env.writeRes with
            | .error e =>
              ⟨c.genesisHash, [genesisPath], [(genesisPath, genesis)], 1, 0, 0, ev0,
                .error (.wrapped e)⟩
            | .ok _ =>
              initGenesisCheck env c.genesisHash [genesisPath] [(genesisPath, genesis)] 1 0 ev0
      else
        match env.commandsRes with
        | .error e => ⟨c.genesisHash, [genesisPath], [], 0, 0, 0, ev0, .error (.wrapped e)⟩
        | .ok _ =>
          match env.cmdInitRes with
          | .error e => ⟨c.genesisHash, [genesisPath], [], 0, 1, 0, ev0, .error (.wrapped e)⟩
          | .ok _ =>
            initGenesisCheck env c.genesisHash [genesisPath] [] 0 1 ev0

/-- Oracle for the external calls made by `Init`: `chain.Home`,
`os.RemoveAll` on the home directory, `Build`, the chain's local `Init`
command, and the oracle of the nested `initGenesis` call. -/
structure InitEnv where
  homeRes : Except String String
  removeHomeRes : Except String Unit
  buildRes : Except String Unit
  chainInitRes : Except String Unit
  genesisEnv : GenesisEnv
deriving DecidableEq, Repr

/-- Observable outcome of `Init`: the updated chain record and the Go
return value. -/
structure InitOutcome where
  chain : Chain
  result : Except Err Unit
deriving DecidableEq, Repr

/-- Go: `func (c *Chain) Init(ctx, cacheStorage) error`. Resolves the home
directory, wipes it, builds the chain binary, runs the local init command,
runs `initGenesis`, and sets `c.isInitialized = true` only when every step
succeeded. -/
def Init (c : Chain) (env : InitEnv) : InitOutcome :=
  match env.homeRes with
  | .error e => ⟨c, .error (.wrapped e)⟩
  | .ok _ =>
    match env.removeHomeRes with
    | .error e => ⟨c, .error (.wrapped e)⟩
    | .ok _ =>
      match env.buildRes with
      | .error e => ⟨c, .error (.wrapped e)⟩
      | .ok _ =>
        match env.chainInitRes with
        | .error e => ⟨c, .error (.wrapped e)⟩
        | .ok _ =>
          let g := initGenesis c env.genesisEnv
          match g.result with
          | .error e => ⟨{ c with genesisHash := g.genesisHash }, .error e⟩
          | .ok _ =>
            ⟨{ c with genesisHash := g.genesisHash, isInitialized := true }, .ok ()⟩

/-- C1: with the launch params fetched and the coordinator address
resolved, `TriggerLaunch` enforces a window whose lower bound is
`now + minOffsetDuration + MinLaunchTimeOffset` (the 30-second safety
margin) and whose upper bound is `now + maxOffsetDuration`: a nonzero
requested time draws the lower-bound error exactly when it is below
`now + min + margin`, and the upper-bound error exactly when it is at or
above that lower bound and strictly above `now + max` — the margin is never
added to the upper bound. -/
theorem c1_launch_window (n : Network) (launchID : Nat) (t : Int) (p : Params)
    (hp : n.paramsRes = .ok p) (ha : ∃ a, n.addressRes = .ok a) (ht : t ≠ 0) :
    MinLaunchTimeOffset = 30 * second ∧
    ((TriggerLaunch n launchID t).result =
        .error (.lowerBound t (n.now + p.launchTimeRange.minLaunchTime + MinLaunchTimeOffset)) ↔
      t < n.now + p.launchTimeRange.minLaunchTime + MinLaunchTimeOffset) ∧
    ((TriggerLaunch n launchID t).result =
        .error (.upperBound t (n.now + p.launchTimeRange.maxLaunchTime)) ↔
      (n.now + p.launchTimeRange.minLaunchTime + MinLaunchTimeOffset ≤ t ∧
        n.now + p.launchTimeRange.maxLaunchTime < t)) := by
  obtain ⟨a, ha⟩ := ha
  refine ⟨by norm_num [MinLaunchTimeOffset, second, mul_comm], ?_, ?_⟩
  · simp only [TriggerLaunch, hp, ha, if_neg ht]
    by_cases h1 : t < n.now + p.launchTimeRange.minLaunchTime + MinLaunchTimeOffset
    · simp [h1]
    · simp only [if_neg h1]
      by_cases h2 : n.now + p.launchTimeRange.maxLaunchTime < t
      · simp [h2, h1]
      · simp only [if_neg h2, triggerBroadcast]
        cases n.broadcastRes <;> [skip; cases n.decodeRes] <;> simp [h1]
  · simp only [TriggerLaunch, hp, ha, if_neg ht]
    by_cases h1 : t < n.now + p.launchTimeRange.minLaunchTime + MinLaunchTimeOffset
    · simp [h1, not_le.mpr h1]
    · simp only [if_neg h1]
      by_cases h2 : n.now + p.launchTimeRange.maxLaunchTime < t
      · simp [h2, not_lt.mp h1]
      · simp only [if_neg h2, triggerBroadcast]
        cases n.broadcastRes <;> [skip; cases n.decodeRes] <;> simp [h2]

/-- Witness for `c1_launch_window`: concrete network with
`now = 0`, `minOffsetDuration = 100`, `maxOffsetDuration = 200`; the
requested time `1` is below `0 + 100 + MinLaunchTimeOffset` and draws the
lower-bound error citing exactly that bound. -/
theorem c1_launch_window_witness :
    (TriggerLaunch ⟨0, .ok ⟨⟨100, 200⟩⟩, .ok "spn", .ok (), .ok ()⟩ 3 1).result =
      .error (.lowerBound 1 (0 + 100 + MinLaunchTimeOffset)) :=
  ((c1_launch_window ⟨0, .ok ⟨⟨100, 200⟩⟩, .ok "spn", .ok (), .ok ()⟩ 3 1 ⟨⟨100, 200⟩⟩
    rfl ⟨"spn", rfl⟩ (by decide)).2.1).mpr (by decide)

/-- C2: given a well-formed window (lower bound at most upper bound), an
absent (zero) requested time is resolved to the window minimum and
broadcast as-is; a nonzero time strictly below the minimum fails with the
lower-bound error citing the minimum; one strictly above the maximum fails
with the upper-bound error citing the maximum; and any nonzero time inside
the inclusive window — both endpoints included — is broadcast unchanged. -/
theorem c2_validate_or_default (n : Network) (launchID : Nat) (t : Int) (p : Params) (a : String)
    (hp : n.paramsRes = .ok p) (ha : n.addressRes = .ok a)
    (hw : n.now + p.launchTimeRange.minLaunchTime + MinLaunchTimeOffset ≤
      n.now + p.launchTimeRange.maxLaunchTime) :
    ((TriggerLaunch n launchID 0).broadcasts =
      [⟨a, launchID, n.now + p.launchTimeRange.minLaunchTime + MinLaunchTimeOffset⟩]) ∧
    (t ≠ 0 → t < n.now + p.launchTimeRange.minLaunchTime + MinLaunchTimeOffset →
      (TriggerLaunch n launchID t).result =
        .error (.lowerBound t (n.now + p.launchTimeRange.minLaunchTime + MinLaunchTimeOffset))) ∧
    (t ≠ 0 → n.now + p.launchTimeRange.maxLaunchTime < t →
      (TriggerLaunch n launchID t).result =
        .error (.upperBound t (n.now + p.launchTimeRange.maxLaunchTime))) ∧
    (t ≠ 0 → n.now + p.launchTimeRange.minLaunchTime + MinLaunchTimeOffset ≤ t →
      t ≤ n.now + p.launchTimeRange.maxLaunchTime →
      (TriggerLaunch n launchID t).broadcasts = [⟨a, launchID, t⟩]) := by
  refine ⟨?_, ?_, ?_, ?_⟩
  · simp only [TriggerLaunch, hp, ha, if_pos rfl, triggerBroadcast]
    cases n.broadcastRes <;> [skip; cases n.decodeRes] <;> simp
  · intro ht h1
    simp [TriggerLaunch, hp, ha, if_neg ht, h1]
  · intro ht h2
    have h1 : ¬ t < n.now + p.launchTimeRange.minLaunchTime + MinLaunchTimeOffset :=
      not_lt.mpr (le_trans hw (le_of_lt h2))
    simp [TriggerLaunch, hp, ha, if_neg ht, if_neg h1, h2]
  · intro ht h1 h2
    simp only [TriggerLaunch, hp, ha, if_neg ht, if_neg (not_lt.mpr h1),
      if_neg (not_lt.mpr h2), triggerBroadcast]
    cases n.broadcastRes <;> [skip; cases n.decodeRes] <;> simp

/-- Witness for `c2_validate_or_default`: concrete network with `now = 0`
and offsets `100` and `40000000000`, so the window is
`[30000000100, 40000000000]`; a requested time equal to the upper bound is
accepted and broadcast as-is (inclusive bounds). -/
theorem c2_validate_or_default_witness :
    (TriggerLaunch ⟨0, .ok ⟨⟨100, 40000000000⟩⟩, .ok "spn", .ok (), .ok ()⟩ 3
      40000000000).broadcasts = [⟨"spn", 3, 40000000000⟩] :=
  (c2_validate_or_default ⟨0, .ok ⟨⟨100, 40000000000⟩⟩, .ok "spn", .ok (), .ok ()⟩ 3
    40000000000 ⟨⟨100, 40000000000⟩⟩ "spn" rfl rfl (by decide)).2.2.2
    (by decide) (by decide) (by decide)

/-- C3: with params and address resolved, a nonzero requested time outside
the inclusive window makes `TriggerLaunch` return the corresponding
out-of-range error and hand nothing to `BroadcastTx`: the broadcast trace
of that call is empty. -/
theorem c3_out_of_range_no_broadcast (n : Network) (launchID : Nat) (t : Int) (p : Params)
    (hp : n.paramsRes = .ok p) (ha : ∃ a, n.addressRes = .ok a) (ht : t ≠ 0)
    (hout : t < n.now + p.launchTimeRange.minLaunchTime + MinLaunchTimeOffset ∨
      n.now + p.launchTimeRange.maxLaunchTime < t) :
    ((TriggerLaunch n launchID t).result =
        .error (.lowerBound t (n.now + p.launchTimeRange.minLaunchTime + MinLaunchTimeOffset)) ∨
      (TriggerLaunch n launchID t).result =
        .error (.upperBound t (n.now + p.launchTimeRange.maxLaunchTime))) ∧
    (TriggerLaunch n launchID t).broadcasts = [] := by
  obtain ⟨a, ha⟩ := ha
  by_cases h1 : t < n.now + p.launchTimeRange.minLaunchTime + MinLaunchTimeOffset
  · constructor
    · exact Or.inl (by simp [TriggerLaunch, hp, ha, if_neg ht, h1])
    · simp [TriggerLaunch, hp, ha, if_neg ht, h1]
  · have h2 : n.now + p.launchTimeRange.maxLaunchTime < t := hout.resolve_left h1
    constructor
    · exact Or.inr (by simp [TriggerLaunch, hp, ha, if_neg ht, if_neg h1, h2])
    · simp [TriggerLaunch, hp, ha, if_neg ht, if_neg h1, h2]

/-- Witness for `c3_out_of_range_no_broadcast`: requested time
`50000000000` is above the window maximum `40000000000`; the call fails
with an out-of-range error and its broadcast trace is empty. -/
theorem c3_out_of_range_no_broadcast_witness :
    ((TriggerLaunch ⟨0, .ok ⟨⟨100, 40000000000⟩⟩, .ok "spn", .ok (), .ok ()⟩ 3
        50000000000).result =
      .error (.lowerBound 50000000000 (0 + 100 + MinLaunchTimeOffset)) ∨
      (TriggerLaunch ⟨0, .ok ⟨⟨100, 40000000000⟩⟩, .ok "spn", .ok (), .ok ()⟩ 3
        50000000000).result = .error (.upperBound 50000000000 (0 + 40000000000))) ∧
    (TriggerLaunch ⟨0, .ok ⟨⟨100, 40000000000⟩⟩, .ok "spn", .ok (), .ok ()⟩ 3
      50000000000).broadcasts = [] :=
  c3_out_of_range_no_broadcast ⟨0, .ok ⟨⟨100, 40000000000⟩⟩, .ok "spn", .ok (), .ok ()⟩ 3
    50000000000 ⟨⟨100, 40000000000⟩⟩ rfl ⟨"spn", rfl⟩ (by decide) (Or.inr (by decide))

/-- C7: whenever a `TriggerLaunch` call actually invokes `Decode` on its
broadcast response (the broadcast succeeded) and the decode fails, the call
returns that decode error; and any done-status event — in particular the
"will be launched" notification — is emitted only when the decode
succeeded. -/
theorem c7_decode_gates_success (n : Network) (launchID : Nat) (t : Int) :
    (∀ d, n.broadcastRes = .ok () → n.decodeRes = .error d →
      1 ≤ (TriggerLaunch n launchID t).decodes →
      (TriggerLaunch n launchID t).result = .error (.wrapped d)) ∧
    (∀ s, Event.done s ∈ (TriggerLaunch n launchID t).events →
      n.broadcastRes = .ok () ∧ n.decodeRes = .ok ()) := by
  constructor
  · intro d hb hd hreach
    simp only [TriggerLaunch, triggerBroadcast, hb, hd] at hreach ⊢
    cases hp : n.paramsRes with
    | error e => simp [hp] at hreach
    | ok p =>
      cases ha : n.addressRes with
      | error e => simp [hp, ha] at hreach
      | ok a =>
        simp only [hp, ha] at hreach ⊢
        by_cases h0 : t = 0
        · simp [h0]
        · simp only [if_neg h0] at hreach ⊢
          by_cases h1 : t < n.now + p.launchTimeRange.minLaunchTime + MinLaunchTimeOffset
          · simp [h1] at hreach
          · simp only [if_neg h1] at hreach ⊢
            by_cases h2 : n.now + p.launchTimeRange.maxLaunchTime < t
            · simp [h2] at hreach
            · simp [if_neg h2]
  · intro s hs
    simp only [TriggerLaunch, triggerBroadcast] at hs
    cases hp : n.paramsRes with
    | error e => simp [hp] at hs
    | ok p =>
      cases ha : n.addressRes with
      | error e => simp [hp, ha] at hs
      | ok a =>
        simp only [hp, ha] at hs
        cases hb : n.broadcastRes with
        | error e =>
          exfalso
          simp only [hb] at hs
          by_cases h0 : t = 0
          · rw [if_pos h0] at hs; simp at hs
          · rw [if_neg h0] at hs
            by_cases h1 : t < n.now + p.launchTimeRange.minLaunchTime + MinLaunchTimeOffset
            · rw [if_pos h1] at hs; simp at hs
            · rw [if_neg h1] at hs
              by_cases h2 : n.now + p.launchTimeRange.maxLaunchTime < t
              · rw [if_pos h2] at hs; simp at hs
              · rw [if_neg h2] at hs; simp at hs
        | ok u =>
          cases hd : n.decodeRes with
          | error e =>
            exfalso
            simp only [hb, hd] at hs
            by_cases h0 : t = 0
            · rw [if_pos h0] at hs; simp at hs
            · rw [if_neg h0] at hs
              by_cases h1 : t < n.now + p.launchTimeRange.minLaunchTime + MinLaunchTimeOffset
              · rw [if_pos h1] at hs; simp at hs
              · rw [if_neg h1] at hs
                by_cases h2 : n.now + p.launchTimeRange.maxLaunchTime < t
                · rw [if_pos h2] at hs; simp at hs
                · rw [if_neg h2] at hs; simp at hs
          | ok v => exact ⟨rfl, rfl⟩

/-- Witness for `c7_decode_gates_success`: broadcast succeeds, decode
fails with "malformed response"; the call reports exactly that error. -/
theorem c7_decode_gates_success_witness :
    (TriggerLaunch ⟨0, .ok ⟨⟨100, 40000000000⟩⟩, .ok "spn", .ok (),
      .error "malformed response"⟩ 7 0).result = .error (.wrapped "malformed response") :=
  (c7_decode_gates_success ⟨0, .ok ⟨⟨100, 40000000000⟩⟩, .ok "spn", .ok (),
    .error "malformed response"⟩ 7 0).1 "malformed response" rfl rfl (by decide)

/-- C10: with params and address resolved, a zero-valued launch time is
silently replaced by the window minimum: the call never returns any
out-of-range error (for any cited requested value or bound), and whatever
message reaches `BroadcastTx` carries the window minimum, not zero — so the
literal zero time can neither be scheduled (unless it coincides with the
minimum) nor draw a range violation. -/
theorem c10_zero_time_never_validated (n : Network) (launchID : Nat) (p : Params) (a : String)
    (hp : n.paramsRes = .ok p) (ha : n.addressRes = .ok a) :
    (∀ req bound, (TriggerLaunch n launchID 0).result ≠ .error (.lowerBound req bound) ∧
      (TriggerLaunch n launchID 0).result ≠ .error (.upperBound req bound)) ∧
    (TriggerLaunch n launchID 0).broadcasts =
      [⟨a, launchID, n.now + p.launchTimeRange.minLaunchTime + MinLaunchTimeOffset⟩] := by
  constructor
  · intro req bound
    simp only [TriggerLaunch, hp, ha, if_pos rfl, triggerBroadcast]
    cases n.broadcastRes <;> [skip; cases n.decodeRes] <;> simp
  · simp only [TriggerLaunch, hp, ha, if_pos rfl, triggerBroadcast]
    cases n.broadcastRes <;> [skip; cases n.decodeRes] <;> simp

/-- Witness for `c10_zero_time_never_validated`: a zero requested time with
a window `[30000000100, 40000000000]` is replaced by the minimum
`30000000100` in the broadcast message and draws no out-of-range error,
even though `0` lies outside the window. -/
theorem c10_zero_time_never_validated_witness :
    (TriggerLaunch ⟨0, .ok ⟨⟨100, 40000000000⟩⟩, .ok "spn", .ok (), .ok ()⟩ 3 0).result ≠
      .error (.lowerBound 0 (0 + 100 + MinLaunchTimeOffset)) ∧
    (TriggerLaunch ⟨0, .ok ⟨⟨100, 40000000000⟩⟩, .ok "spn", .ok (), .ok ()⟩ 3 0).broadcasts =
      [⟨"spn", 3, 0 + 100 + MinLaunchTimeOffset⟩] :=
  ⟨((c10_zero_time_never_validated ⟨0, .ok ⟨⟨100, 40000000000⟩⟩, .ok "spn", .ok (), .ok ()⟩ 3
      ⟨⟨100, 40000000000⟩⟩ "spn" rfl rfl).1 0 (0 + 100 + MinLaunchTimeOffset)).1,
    (c10_zero_time_never_validated ⟨0, .ok ⟨⟨100, 40000000000⟩⟩, .ok "spn", .ok (), .ok ()⟩ 3
      ⟨⟨100, 40000000000⟩⟩ "spn" rfl rfl).2⟩

/-- C8 counterexample: a `RevertLaunch` call whose broadcast succeeds
reports full success — it returns no error and emits the "launch was
reverted" done event — while performing zero `Decode` calls on the
broadcast response, so the revert flow does report the transaction as
succeeded without decoding its response. -/
theorem c8_revert_reports_success_without_decode :
    (RevertLaunch ⟨.ok "spn", .ok (), .ok ()⟩ 5).result = .ok () ∧
    (RevertLaunch ⟨.ok "spn", .ok (), .ok ()⟩ 5).decodes = 0 ∧
    Event.done "Chain 5 launch was reverted" ∈
      (RevertLaunch ⟨.ok "spn", .ok (), .ok ()⟩ 5).events := by
  refine ⟨rfl, rfl, ?_⟩
  decide

/-- C8 amended: only the trigger flow ties success to response decoding —
a `TriggerLaunch` call that returns success has performed exactly one
`Decode` call, which succeeded — whereas the revert flow never decodes its
broadcast response at all: every `RevertLaunch` call performs zero `Decode`
calls, succeeding or not. -/
theorem c8_trigger_decodes_revert_does_not (n : Network) (launchID : Nat) (t : Int)
    (env : RevertEnv) (revertID : Nat)
    (h : (TriggerLaunch n launchID t).result = .ok ()) :
    n.decodeRes = .ok () ∧ (TriggerLaunch n launchID t).decodes = 1 ∧
    (RevertLaunch env revertID).decodes = 0 := by
  have hr : (RevertLaunch env revertID).decodes = 0 := by
    simp only [RevertLaunch]
    cases env.addressRes <;> [skip; cases env.broadcastRes] <;> [skip; skip; cases env.resetRes]
      <;> rfl
  have key : n.decodeRes = .ok () ∧ (TriggerLaunch n launchID t).decodes = 1 := by
    simp only [TriggerLaunch, triggerBroadcast] at h ⊢
    cases hp : n.paramsRes with
    | error e => simp [hp] at h
    | ok p =>
      cases ha : n.addressRes with
      | error e => simp [hp, ha] at h
      | ok a =>
        simp only [hp, ha] at h ⊢
        by_cases h0 : t = 0
        · rw [if_pos h0] at h ⊢
          cases hb : n.broadcastRes with
          | error e => simp [hb] at h
          | ok u =>
            cases hd : n.decodeRes with
            | error e => simp [hb, hd] at h
            | ok v => simp [hb, hd]
        · rw [if_neg h0] at h ⊢
          by_cases h1 : t < n.now + p.launchTimeRange.minLaunchTime + MinLaunchTimeOffset
          · rw [if_pos h1] at h; simp at h
          · rw [if_neg h1] at h ⊢
            by_cases h2 : n.now + p.launchTimeRange.maxLaunchTime < t
            · rw [if_pos h2] at h; simp at h
            · rw [if_neg h2] at h ⊢
              cases hb : n.broadcastRes with
              | error e => simp [hb] at h
              | ok u =>
                cases hd : n.decodeRes with
                | error e => simp [hb, hd] at h
                | ok v => simp [hb, hd]
  exact ⟨key.1, key.2, hr⟩

/-- Witness for `c8_trigger_decodes_revert_does_not`: a fully successful
trigger call performed its one successful decode, and a revert call on a
fully successful environment performed none. -/
theorem c8_trigger_decodes_revert_does_not_witness :
    (⟨0, .ok ⟨⟨100, 40000000000⟩⟩, .ok "spn", .ok (), .ok ()⟩ : Network).decodeRes = .ok () ∧
    (TriggerLaunch ⟨0, .ok ⟨⟨100, 40000000000⟩⟩, .ok "spn", .ok (), .ok ()⟩ 3 0).decodes = 1 ∧
    (RevertLaunch ⟨.ok "spn", .ok (), .ok ()⟩ 5).decodes = 0 :=
  c8_trigger_decodes_revert_does_not ⟨0, .ok ⟨⟨100, 40000000000⟩⟩, .ok "spn", .ok (), .ok ()⟩
    3 0 ⟨.ok "spn", .ok (), .ok ()⟩ 5 (by decide)

/-- C4: during genesis acquisition with a remote source configured (the
path resolved, the stale genesis removed, and the fetch returning
`(genesis, hash)`): when the chain record holds no genesis hash, the
fetched hash is adopted as the record's hash; when it holds one that
differs from the fetched hash, acquisition fails with the mismatch error
naming the source URL, the expected hash and the actual hash, the record's
hash is untouched, and nothing is written to the genesis file. -/
theorem c4_remote_genesis_hash_check (c : Chain) (env : GenesisEnv) (path genesis hash : String)
    (hurl : c.genesisURL ≠ "")
    (hpath : env.genesisPathRes = .ok path)
    (hrm : env.removeGenesisRes = .ok ())
    (hfetch : env.fetchRes = .ok (genesis, hash)) :
    (c.genesisHash = "" → (initGenesis c env).genesisHash = hash) ∧
    (c.genesisHash ≠ "" → hash ≠ c.genesisHash →
      (initGenesis c env).result = .error (.hashMismatch c.genesisURL c.genesisHash hash) ∧
      (initGenesis c env).genesisHash = c.genesisHash ∧
      (initGenesis c env).writes = []) := by
  constructor
  · intro hempty
    simp only [initGenesis, hpath, hrm, hfetch, if_pos hurl, if_pos hempty, initGenesisCheck]
    cases hw : env.writeRes with
    | error e => rfl
    | ok u =>
      cases hchk : (checkInitialGenesis env.checkEnv).result with
      | error e => rfl
      | ok v => rfl
  · intro hfull hne
    simp only [initGenesis, hpath, hrm, hfetch, if_pos hurl, if_neg hfull, if_pos hne]
    exact ⟨trivial, trivial, trivial⟩

/-- Witness for `c4_remote_genesis_hash_check`: chain record with recorded
hash `"abc"`, fetch returning hash `"def"`: acquisition fails with the
mismatch error naming the URL and both hashes, keeps `"abc"`, and writes
nothing. -/
theorem c4_remote_genesis_hash_check_witness :
    (initGenesis ⟨"http:u", "abc", false⟩
        ⟨.ok "genesis.json", .ok (), .ok ("g", "def"), .ok (), .ok (), .ok (),
          ⟨.ok (), .ok "genesis.json", .ok "g", .ok ⟨0⟩, .ok ()⟩⟩).result =
      .error (.hashMismatch "http:u" "abc" "def") ∧
    (initGenesis ⟨"http:u", "abc", false⟩
        ⟨.ok "genesis.json", .ok (), .ok ("g", "def"), .ok (), .ok (), .ok (),
          ⟨.ok (), .ok "genesis.json", .ok "g", .ok ⟨0⟩, .ok ()⟩⟩).genesisHash = "abc" ∧
    (initGenesis ⟨"http:u", "abc", false⟩
        ⟨.ok "genesis.json", .ok (), .ok ("g", "def"), .ok (), .ok (), .ok (),
          ⟨.ok (), .ok "genesis.json", .ok "g", .ok ⟨0⟩, .ok ()⟩⟩).writes = [] :=
  (c4_remote_genesis_hash_check ⟨"http:u", "abc", false⟩
    ⟨.ok "genesis.json", .ok (), .ok ("g", "def"), .ok (), .ok (), .ok (),
      ⟨.ok (), .ok "genesis.json", .ok "g", .ok ⟨0⟩, .ok ()⟩⟩
    "genesis.json" "g" "def" (by decide) rfl rfl rfl).2 (by decide) (by decide)

/-- C5 counterexample: two genesis checks identical except for the gentx
count — one submission versus two — produce exactly the same outcome, the
fixed error "the initial genesis for the chain should not contain gentx";
an error that is the same value for different counts cannot report the
exact count `N` of transactions present. -/
theorem c5_gentx_error_ignores_count :
    checkInitialGenesis ⟨.ok (), .ok "genesis.json", .ok "g", .ok ⟨1⟩, .ok ()⟩ =
      checkInitialGenesis ⟨.ok (), .ok "genesis.json", .ok "g", .ok ⟨2⟩, .ok ()⟩ ∧
    (checkInitialGenesis ⟨.ok (), .ok "genesis.json", .ok "g", .ok ⟨1⟩, .ok ()⟩).result =
      .error .gentxPresent ∧
    (Err.gentxPresent).message = "the initial genesis for the chain should not contain gentx" := by
  decide

/-- C5 amended: for every persisted genesis whose parse succeeds with
`N > 0` validator-submission transactions (commands, path and read having
succeeded), `checkInitialGenesis` fails with the fixed semantic error
"the initial genesis for the chain should not contain gentx" — which does
not carry the count — and the chain binary's validate-genesis command is
never invoked on that call. -/
theorem c5_gentx_rejection (env : CheckEnv) (g : ChainGenesis)
    (hc : env.commandsRes = .ok ())
    (hgp : ∃ p, env.genesisPathRes = .ok p)
    (hrd : ∃ s, env.readRes = .ok s)
    (hparse : env.parseRes = .ok g) (hn : 0 < g.genTxCount) :
    (checkInitialGenesis env).result = .error .gentxPresent ∧
    (checkInitialGenesis env).validates = 0 := by
  obtain ⟨p, hgp⟩ := hgp
  obtain ⟨s, hrd⟩ := hrd
  simp [checkInitialGenesis, hc, hgp, hrd, hparse, hn]

/-- Witness for `c5_gentx_rejection`: a genesis parsing to three gentxs is
rejected with the fixed error and no validate-genesis invocation. -/
theorem c5_gentx_rejection_witness :
    (checkInitialGenesis ⟨.ok (), .ok "genesis.json", .ok "g", .ok ⟨3⟩, .ok ()⟩).result =
      .error .gentxPresent ∧
    (checkInitialGenesis ⟨.ok (), .ok "genesis.json", .ok "g", .ok ⟨3⟩, .ok ()⟩).validates = 0 :=
  c5_gentx_rejection ⟨.ok (), .ok "genesis.json", .ok "g", .ok ⟨3⟩, .ok ()⟩ ⟨3⟩
    rfl ⟨"genesis.json", rfl⟩ ⟨"g", rfl⟩ rfl (by decide)

/-- C6 counterexample: with no remote genesis source configured (empty
URL) and every local step succeeding, the acquisition step deletes the
genesis file produced by the local init command (`removals =
["genesis.json"]`) and regenerates it by invoking the local init command
once more (`cmdInits = 1`) — the file is not used as-is. -/
theorem c6_default_genesis_is_regenerated :
    (initGenesis ⟨"", "", false⟩
        ⟨.ok "genesis.json", .ok (), .ok ("g", "h"), .ok (), .ok (), .ok (),
          ⟨.ok (), .ok "genesis.json", .ok "g", .ok ⟨0⟩, .ok ()⟩⟩).removals = ["genesis.json"] ∧
    (initGenesis ⟨"", "", false⟩
        ⟨.ok "genesis.json", .ok (), .ok ("g", "h"), .ok (), .ok (), .ok (),
          ⟨.ok (), .ok "genesis.json", .ok "g", .ok ⟨0⟩, .ok ()⟩⟩).cmdInits = 1 := by
  decide

/-- C6 amended: when no remote genesis source is configured (path
resolution, removal and command resolution succeeding), genesis
acquisition performs no remote fetch and writes no file content itself,
but it deletes the genesis file left by the local init command and invokes
the local init command once more to regenerate the default genesis. -/
theorem c6_no_url_no_fetch (c : Chain) (env : GenesisEnv) (path : String)
    (hurl : c.genesisURL = "")
    (hpath : env.genesisPathRes = .ok path)
    (hrm : env.removeGenesisRes = .ok ())
    (hcmd : env.commandsRes = .ok ()) :
    (initGenesis c env).fetches = 0 ∧
    (initGenesis c env).removals = [path] ∧
    (initGenesis c env).cmdInits = 1 ∧
    (initGenesis c env).writes = [] := by
  have hne : ¬ c.genesisURL ≠ "" := by simp [hurl]
  simp only [initGenesis, hpath, hrm, hcmd, if_neg hne, initGenesisCheck]
  cases hi : env.cmdInitRes with
  | error e => exact ⟨rfl, rfl, rfl, rfl⟩
  | ok u =>
    cases hchk : (checkInitialGenesis env.checkEnv).result with
    | error e => exact ⟨rfl, rfl, rfl, rfl⟩
    | ok v => exact ⟨rfl, rfl, rfl, rfl⟩

/-- Witness for `c6_no_url_no_fetch`: the concrete all-succeeding local
environment with empty URL fetches nothing, removes the genesis file,
reruns the init command once, and writes nothing itself. -/
theorem c6_no_url_no_fetch_witness :
    (initGenesis ⟨"", "", false⟩
        ⟨.ok "genesis.json", .ok (), .ok ("g", "h"), .ok (), .ok (), .ok (),
          ⟨.ok (), .ok "genesis.json", .ok "g", .ok ⟨0⟩, .ok ()⟩⟩).fetches = 0 ∧
    (initGenesis ⟨"", "", false⟩
        ⟨.ok "genesis.json", .ok (), .ok ("g", "h"), .ok (), .ok (), .ok (),
          ⟨.ok (), .ok "genesis.json", .ok "g", .ok ⟨0⟩, .ok ()⟩⟩).removals = ["genesis.json"] ∧
    (initGenesis ⟨"", "", false⟩
        ⟨.ok "genesis.json", .ok (), .ok ("g", "h"), .ok (), .ok (), .ok (),
          ⟨.ok (), .ok "genesis.json", .ok "g", .ok ⟨0⟩, .ok ()⟩⟩).cmdInits = 1 ∧
    (initGenesis ⟨"", "", false⟩
        ⟨.ok "genesis.json", .ok (), .ok ("g", "h"), .ok (), .ok (), .ok (),
          ⟨.ok (), .ok "genesis.json", .ok "g", .ok ⟨0⟩, .ok ()⟩⟩).writes = [] :=
  c6_no_url_no_fetch ⟨"", "", false⟩
    ⟨.ok "genesis.json", .ok (), .ok ("g", "h"), .ok (), .ok (), .ok (),
      ⟨.ok (), .ok "genesis.json", .ok "g", .ok ⟨0⟩, .ok ()⟩⟩
    "genesis.json" rfl rfl rfl rfl

/-- C9: `Init` returns success exactly when home resolution, home
directory wipe, binary build, the local init command and genesis
acquisition (which includes static validation) all succeed; on success the
initialization flag is set, on any error the flag is left exactly as it
was; and each step's failure is returned as `Init`'s own error. -/
theorem c9_init_flag_gated (c : Chain) (env : InitEnv) :
    ((Init c env).result = .ok () ↔
      ((∃ h, env.homeRes = .ok h) ∧ env.removeHomeRes = .ok () ∧ env.buildRes = .ok () ∧
        env.chainInitRes = .ok () ∧ (initGenesis c env.genesisEnv).result = .ok ())) ∧
    ((Init c env).result = .ok () → (Init c env).chain.isInitialized = true) ∧
    (∀ e, (Init c env).result = .error e → (Init c env).chain.isInitialized = c.isInitialized) ∧
    (∀ e, env.homeRes = .error e → (Init c env).result = .error (.wrapped e)) ∧
    (∀ e h, env.homeRes = .ok h → env.removeHomeRes = .error e →
      (Init c env).result = .error (.wrapped e)) ∧
    (∀ e h, env.homeRes = .ok h → env.removeHomeRes = .ok () → env.buildRes = .error e →
      (Init c env).result = .error (.wrapped e)) ∧
    (∀ e h, env.homeRes = .ok h → env.removeHomeRes = .ok () → env.buildRes = .ok () →
      env.chainInitRes = .error e → (Init c env).result = .error (.wrapped e)) ∧
    (∀ e h, env.homeRes = .ok h → env.removeHomeRes = .ok () → env.buildRes = .ok () →
      env.chainInitRes = .ok () → (initGenesis c env.genesisEnv).result = .error e →
      (Init c env).result = .error e) := by
  cases hh : env.homeRes with
  | error e0 => simp [Init, hh]
  | ok h0 =>
    cases hr : env.removeHomeRes with
    | error e0 => simp [Init, hh, hr]
    | ok u0 =>
      cases hb : env.buildRes with
      | error e0 => simp [Init, hh, hr, hb]
      | ok u1 =>
        cases hci : env.chainInitRes with
        | error e0 => simp [Init, hh, hr, hb, hci]
        | ok u2 =>
          cases hg : (initGenesis c env.genesisEnv).result with
          | error e0 => simp [Init, hh, hr, hb, hci, hg]
          | ok u3 => simp [Init, hh, hr, hb, hci, hg]

/-- Witness for `c9_init_flag_gated`: an `Init` run on a default-genesis
chain where every step succeeds ends with the initialization flag set. -/
theorem c9_init_flag_gated_witness :
    (Init ⟨"", "", false⟩
        ⟨.ok "home", .ok (), .ok (), .ok (),
          ⟨.ok "genesis.json", .ok (), .ok ("g", "h"), .ok (), .ok (), .ok (),
            ⟨.ok (), .ok "genesis.json", .ok "g", .ok ⟨0⟩, .ok ()⟩⟩⟩).chain.isInitialized =
      true :=
  (c9_init_flag_gated ⟨"", "", false⟩
    ⟨.ok "home", .ok (), .ok (), .ok (),
      ⟨.ok "genesis.json", .ok (), .ok ("g", "h"), .ok (), .ok (), .ok (),
        ⟨.ok (), .ok "genesis.json", .ok "g", .ok ⟨0⟩, .ok ()⟩⟩⟩).2.1 (by decide)
